/-
  Verification of the request-coalescing cache-validation engine of
  go-apt-mirror (src/internal/handlers/handlers.go).

  The Go code is shallowly embedded: pure helpers (path classifiers,
  content-type inference) become Lean functions over `String`; the
  stateful handler paths become pure functions from their inputs (request
  fields, cache contents, an oracle describing origin responses and lock
  outcomes) to a response-writer state (`RW`) plus a list of observable
  events (`Ev`); the single-flight lock protocol additionally gets a
  small-step interleaving semantics (`sfStep`/`sfRun`) for the
  concurrency claims.  Wall-clock times are embedded as `Int`; the
  external RFC-7231 date parser/formatter of the Go standard library is
  passed in as an explicit function parameter.
-/
import Mathlib

/-! ## Basic embedded types -/

/-- Wall-clock timestamps (Go `time.Time`), embedded as integers so that
`t.After s` becomes `t > s`. -/
abbrev GoTime := Int

/-- Raw byte sequences (Go `[]byte`). -/
abbrev ByteSeq := List Nat

/-- HTTP headers (Go `http.Header`), embedded as an association list in
insertion order; `Get` returns the first value for a key, `Add` appends,
`Set` replaces all values for a key. -/
abbrev Header := List (String × String)

/-- Go `http.Header.Get`: first value for the key, `""` when absent. -/
def hGet (h : Header) (k : String) : String :=
  match h.find? (fun kv => kv.1 == k) with
  | some kv => kv.2
  | none => ""

/-- Go `http.Header.Set`: drop all values for the key, then install the
single new one. -/
def hSet (h : Header) (k v : String) : Header :=
  (h.filter (fun kv => kv.1 != k)) ++ [(k, v)]

/-- Go `http.Header.Add`: append a value (an earlier value for the same
key still wins for `Get`). -/
def hAdd (h : Header) (k v : String) : Header := h ++ [(k, v)]

/-- The header map that the `range`-copy loop builds. -/
def hAddList (hd : Header) (h : Header) : Header :=
  h.foldl (fun acc kv => hAdd acc kv.1 kv.2) hd

/-! ## Go `strings` / `path/filepath` helpers -/

/-- The pattern list begins the subject list (helper for substring search). -/
def startsWithList : List Char → List Char → Bool
  | [], _ => true
  | _ :: _, [] => false
  | a :: as, b :: bs => a == b && startsWithList as bs

/-- The pattern occurs contiguously inside the subject (helper for
`strings.Contains`). -/
def listContains (pat : List Char) : List Char → Bool
  | [] => pat.isEmpty
  | c :: rest => startsWithList pat (c :: rest) || listContains pat rest

/-- Go `strings.Contains s pat`. -/
def goContains (s pat : String) : Bool := listContains pat.data s.data

/-- Go `strings.HasSuffix s "/"`. -/
def endsWithSlash (s : String) : Bool :=
  match s.data.reverse with
  | [] => false
  | c :: _ => c == '/'

/-- Scan the reversed characters of a path, accumulating the extension:
stop (keeping the dot) at the first `'.'`, give up at a `'/'` or at the
start of the string.  This is Go `filepath.Ext` on a Unix path. -/
def scanExt : List Char → List Char → List Char
  | [], _ => []
  | c :: rest, acc =>
    if c == '.' then '.' :: acc
    else if c == '/' then []
    else scanExt rest (c :: acc)

/-- Go `filepath.Ext`: the suffix of the final path element starting at
its last dot, `""` when there is none. -/
def fileExt (path : String) : String := String.mk (scanExt path.data.reverse [])

/-- Go `strings.ToLower` (the extensions we compare against are ASCII). -/
def lowerStr (s : String) : String := String.mk (s.data.map Char.toLower)

/-- Walk the reversed characters of a path, collecting everything up to
the last `'/'` (helper for `baseName`). -/
def afterLastSlash : List Char → List Char → List Char
  | [], acc => acc
  | c :: rest, acc => if c == '/' then acc else afterLastSlash rest (c :: acc)

/-- The path component after the last `'/'` (used only by the spec-side
reading of claim C7, which speaks of the basename). -/
def baseName (p : String) : String := String.mk (afterLastSlash p.data.reverse [])

/-! ## Path classifiers and content-type inference (handlers.go:438-516, 579-606) -/

/-- handlers.go:452-464: the pattern list of `shouldUseIfModifiedSince`. -/
def frequentlyChangingPatterns : List String :=
  ["Release", "Release.gpg", "InRelease", "Packages", "Packages.gz", "Packages.xz",
   "Sources", "Sources.gz", "Sources.xz", "Contents-", "Index"]

/-- handlers.go:440-474 `shouldUseIfModifiedSince`: `/dists/` paths use
conditional logic, `/pool/` paths never do, otherwise any path containing
one of the frequently-changing tokens does. -/
def shouldUseIfModifiedSince (path : String) : Bool :=
  if goContains path "/dists/" then true
  else if goContains path "/pool/" then false
  else if frequentlyChangingPatterns.any (fun pat => goContains path pat) then true
  else false

/-- handlers.go:481-485: the critical metadata patterns. -/
def criticalPatterns : List String := ["Release", "Release.gpg", "InRelease"]

/-- handlers.go:496-500: the changing patterns checked under `/dists/`. -/
def changingPatterns : List String := ["Packages", "Sources", "Contents"]

/-- handlers.go:479-516 `shouldValidateWithOrigin`. -/
def shouldValidateWithOrigin (path : String) : Bool :=
  if criticalPatterns.any (fun pat => goContains path pat) then true
  else if goContains path "/dists/" && changingPatterns.any (fun pat => goContains path pat) then true
  else if goContains path "/pool/" then false
  else false

/-- handlers.go:579-606 `getContentType`: MIME type from the lowercased
file extension. -/
def getContentType (path : String) : String :=
  let ext := lowerStr (fileExt path)
  if ext == ".gz" || ext == ".gzip" then "application/gzip"
  else if ext == ".bz2" then "application/x-bzip2"
  else if ext == ".xz" then "application/x-xz"
  else if ext == ".deb" then "application/vnd.debian.binary-package"
  else if ext == ".asc" then "application/pgp-signature"
  else if ext == ".json" then "application/json"
  else if ext == ".txt" then "text/plain"
  else if ext == ".html" || ext == ".htm" then "text/html"
  else if ext == ".xml" then "application/xml"
  else if ext == ".gpg" then "application/pgp-encrypted"
  else "application/octet-stream"

/-! ## Spec-side definitions for claim C7 -/

/-- Claim C7 as written: rule 3 tests the *basename* of the path against
the token list (the source tests the whole path). -/
def claimUseConditional (path : String) : Bool :=
  if goContains path "/dists/" then true
  else if goContains path "/pool/" then false
  else if frequentlyChangingPatterns.any (fun pat => goContains (baseName path) pat) then true
  else false

/-- Claim C7 amended: the same ordered rules, with rule 3 testing the
whole path, written out as an explicit disjunction of the eleven tokens. -/
def amendedUseConditional (path : String) : Bool :=
  if goContains path "/dists/" then true
  else if goContains path "/pool/" then false
  else
    goContains path "Release" || goContains path "Release.gpg" ||
    goContains path "InRelease" || goContains path "Packages" ||
    goContains path "Packages.gz" || goContains path "Packages.xz" ||
    goContains path "Sources" || goContains path "Sources.gz" ||
    goContains path "Sources.xz" || goContains path "Contents-" ||
    goContains path "Index"

/-! ## Observable events

Each handler run is paired with the list of externally visible calls it
makes, in program order: cache lookups, header-cache lookups, the
revalidation `HEAD` (handlers.go:138-153), the miss-path origin request
(handlers.go:343-363), the refetch `GET` inside `fetchAndUpdateCache`
(handlers.go:217-224), cache and header-cache writes, lock transitions,
and log lines. -/

inductive Ev where
  | cacheGet (p : String)
  | headersGet (p : String)
  | headReq (p ims ua : String)
  | originReq (m p : String) (ims : Option String) (ua : String)
  | getReq (p ua : String)
  | cachePut (p : String) (b : ByteSeq) (len : Int) (lm : GoTime)
  | headerPut (p : String) (h : Header)
  | lockAcq (p : String)
  | lockWait (p : String)
  | logged (tag : String)
deriving DecidableEq, Repr

/-- True exactly on revalidation `HEAD` events (used to state that no
origin `HEAD` was issued during a run). -/
def isHeadReqEv : Ev → Bool
  | Ev.headReq _ _ _ => true
  | _ => false

/-! ## The response writer

Go's `http.ResponseWriter` as the handler observes it: a mutable header
map, a one-shot status (the first `WriteHeader` wins and snapshots the
headers, as `net/http` does), the sequence of body writes the handler
attempts, and a flag recording an attempt to read from a nil body stream
(which panics in Go). -/

structure RW where
  hdr : Header
  sentStatus : Option Nat
  sentHdr : Header
  bodyWrites : List ByteSeq
  nilRead : Bool
deriving DecidableEq, Repr

def RW.start : RW := ⟨[], none, [], [], false⟩

def RW.hSetW (rw : RW) (k v : String) : RW := { rw with hdr := hSet rw.hdr k v }

def RW.hAddW (rw : RW) (k v : String) : RW := { rw with hdr := hAdd rw.hdr k v }

/-- `w.WriteHeader(s)`: only the first call takes effect and snapshots
the current header map. -/
def RW.writeHeader (rw : RW) (s : Nat) : RW :=
  match rw.sentStatus with
  | some _ => rw
  | none => { rw with sentStatus := some s, sentHdr := rw.hdr }

/-- `w.Write(b)`: an implicit `WriteHeader(200)` if none was sent yet,
then the bytes are recorded. -/
def RW.write (rw : RW) (b : ByteSeq) : RW :=
  let rw1 := rw.writeHeader 200
  { rw1 with bodyWrites := rw1.bodyWrites ++ [b] }

/-- `io.Copy(w, content)`: reading from a nil stream is a nil-pointer
dereference in Go; otherwise the bytes are written. -/
def RW.copyFrom (rw : RW) (c : Option ByteSeq) : RW :=
  match c with
  | none => { rw with nilRead := true }
  | some b => rw.write b

/-- The `range`-loop copying a header map into `w.Header()`
(handlers.go:187-191 and 417-421); a nil map ranges over nothing. -/
def RW.addAll (rw : RW) (h : Header) : RW :=
  h.foldl (fun acc kv => acc.hAddW kv.1 kv.2) rw

def strBytes (s : String) : ByteSeq := s.data.map Char.toNat

/-- Go `http.Error`: content-type headers, then the status, then the
message as the body. -/
def RW.httpError (rw : RW) (msg : String) (code : Nat) : RW :=
  let rw1 := rw.hSetW "Content-Type" "text/plain; charset=utf-8"
  let rw2 := rw1.hSetW "X-Content-Type-Options" "nosniff"
  let rw3 := rw2.writeHeader code
  rw3.write (strBytes (msg ++ "\x0a"))

/-- The status the client sees: `none` when the handler crashed reading
a nil stream before completing, the explicit status when one was sent,
and the implicit `200` otherwise. -/
def RW.finalStatus (rw : RW) : Option Nat :=
  if rw.nilRead then none else some (rw.sentStatus.getD 200)

/-- The headers the client sees: the snapshot taken at `WriteHeader`
when one happened, the final map otherwise. -/
def RW.finalHdr (rw : RW) : Header :=
  match rw.sentStatus with
  | some _ => rw.sentHdr
  | none => rw.hdr

/-- All body bytes the handler wrote, concatenated. -/
def bodyServed (rw : RW) : ByteSeq := rw.bodyWrites.flatten

/-! ## Origin oracle types

The behavior of the upstream mirror and of the lock acquisitions during
one request is an input to the embedded handler. -/

/-- Outcome of the refetch `GET` in `fetchAndUpdateCache`: `none` is a
transport error (handlers.go:224-228); `body = none` is a read error
(handlers.go:232-236); `contentLength` is Go's parsed
`Response.ContentLength`. -/
structure OriginResp where
  header : Header
  contentLength : Int
  body : Option ByteSeq
deriving DecidableEq, Repr

/-- Oracle for one `handleCacheHit` run: the header-cache lookup result,
the revalidation `HEAD` outcome (`none` = transport error), whether the
single-flight lock was acquired at handlers.go:167, and the refetch
outcome. -/
structure HitOracle where
  cachedHeaders : Option Header
  headRes : Option Nat
  lockAcquired : Bool
  refetch : Option OriginResp
deriving DecidableEq, Repr

/-- Outcome of the miss-path origin request: `none` = transport error;
`bodyRead = none` = `io.ReadAll` failure. -/
structure MResp where
  status : Nat
  header : Header
  bodyRead : Option ByteSeq
deriving DecidableEq, Repr

/-- Oracle for one `handleCacheMiss` run (handlers.go:305-436). -/
structure MissOracle where
  lockFirst : Bool
  regetEntry : Option (ByteSeq × Int × GoTime)
  regetHit : HitOracle
  lockSecond : Bool
  originRes : Option MResp
deriving DecidableEq, Repr

/-- Result of a handler fragment: writer state plus emitted events (and,
for `handleCacheHit`, its boolean return value). -/
structure HOut where
  rw : RW
  evs : List Ev
  handled : Bool
deriving DecidableEq, Repr

structure MOut where
  rw : RW
  evs : List Ev
deriving DecidableEq, Repr

/-! ## The embedded handler functions -/

/-- handlers.go:246-252 and 394-399: parse the origin `Last-Modified`,
falling back to the wall clock when absent or unparsable. -/
def goLastModified (parse : String → Option GoTime) (now : GoTime) (h : Header) : GoTime :=
  let s := hGet h "Last-Modified"
  if s ≠ "" then
    match parse s with
    | some t => t
    | none => now
  else now

/-- handlers.go:215-270 `fetchAndUpdateCache`: issue the `GET`, read the
body; on a declared/actual size mismatch log and return the received
bytes WITHOUT storing; otherwise store blob and headers and return the
received bytes. -/
structure FetchRes where
  content : Option ByteSeq
  len : Int
  headers : Option Header
  evs : List Ev
deriving DecidableEq, Repr

def fetchAndUpdateCache (parse : String → Option GoTime) (now : GoTime)
    (path : String) (refetch : Option OriginResp) : FetchRes :=
  let evs := [Ev.getReq path "Go-APT-Cache/1.0"]
  match refetch with
  | none => ⟨none, 0, none, evs ++ [Ev.logged "fetch-get-error"]⟩
  | some resp =>
    match resp.body with
    | none => ⟨none, 0, none, evs ++ [Ev.logged "fetch-read-error"]⟩
    | some bodyBytes =>
      let actualSize : Int := bodyBytes.length
      if resp.contentLength > 0 ∧ resp.contentLength ≠ actualSize then
        ⟨some bodyBytes, actualSize, some resp.header, evs ++ [Ev.logged "fetch-size-mismatch"]⟩
      else
        let lastModifiedTime := goLastModified parse now resp.header
        ⟨some bodyBytes, actualSize, some resp.header,
          evs ++ [Ev.cachePut path bodyBytes actualSize lastModifiedTime,
                  Ev.headerPut path resp.header]⟩

/-- handlers.go:109-132: the cache-hit conditional check.  True exactly
when the client timestamp parses and the authoritative stored
`Last-Modified` (cached header if non-empty and parsable, else the
stored entry timestamp) is not after it. -/
def hitNotModified (parse : String → Option GoTime) (imsHdr : String)
    (useIMS : Bool) (ch : Header) (lastModified : GoTime) : Bool :=
  if useIMS ∧ imsHdr ≠ "" then
    match parse imsHdr with
    | some imsT =>
      let lmStr := hGet ch "Last-Modified"
      let lmT :=
        if lmStr ≠ "" then
          match parse lmStr with
          | some t => t
          | none => lastModified
        else lastModified
      decide (lmT ≤ imsT)
    | none => false
  else false

/-- handlers.go:134-184: the revalidation step of a cache hit, producing
the headers/content/length actually served afterwards. -/
structure RevalRes where
  headersOut : Option Header
  content : Option ByteSeq
  len : Int
  evs : List Ev
deriving DecidableEq, Repr

def revalOutcome (parse : String → Option GoTime) (fmt : GoTime → String) (now : GoTime)
    (path : String) (contentIn : ByteSeq) (contentLengthIn : Int) (lastModified : GoTime)
    (useIMS : Bool) (ch : Header) (o : HitOracle) : RevalRes :=
  if useIMS ∧ shouldValidateWithOrigin path then
    let lmStr := hGet ch "Last-Modified"
    let imsOut := if lmStr ≠ "" then lmStr else fmt lastModified
    let headEv := Ev.headReq path imsOut "Go-APT-Cache/1.0"
    match o.headRes with
    | none => ⟨some ch, some contentIn, contentLengthIn, [headEv, Ev.logged "hit-reval-transport-error"]⟩
    | some s =>
      if s = 304 then ⟨some ch, some contentIn, contentLengthIn, [headEv]⟩
      else if s = 200 then
        let lockEv := if o.lockAcquired then Ev.lockAcq path else Ev.lockWait path
        let f := fetchAndUpdateCache parse now path o.refetch
        ⟨f.headers, f.content, f.len, headEv :: Ev.logged "hit-upstream-newer" :: lockEv :: f.evs⟩
      else ⟨some ch, some contentIn, contentLengthIn, [headEv, Ev.logged "hit-reval-unexpected-status"]⟩
  else ⟨some ch, some contentIn, contentLengthIn, []⟩

/-- handlers.go:186-211: the shared tail of the hit path.  Copy the
(possibly refreshed, possibly nil) header map into the writer, overwrite
`Content-Length` with the served length, then stream the body unless the
request was a `HEAD`. -/
def serveTail (method : String) (chOpt : Option Header) (content : Option ByteSeq)
    (clen : Int) (rw : RW) : RW :=
  let rw1 := rw.addAll (chOpt.getD [])
  let rw2 := rw1.hSetW "Content-Length" (toString clen)
  if method == "HEAD" then rw2 else rw2.copyFrom content

/-- handlers.go:272-302 `setBasicHeaders` (degraded hit path, no cached
headers): synthesize `Content-Type` and `Last-Modified`, then perform the
conditional check against the stored entry timestamp; note it writes the
`304` status but does NOT return. -/
def setBasicHeaders (parse : String → Option GoTime) (fmt : GoTime → String)
    (path imsHdr : String) (cachedHeaders : Option Header) (lastModified : GoTime)
    (useIMS : Bool) (rw : RW) : RW :=
  let rw1 :=
    if endsWithSlash path then rw.hSetW "Content-Type" "text/html"
    else
      let ct0 :=
        match cachedHeaders with
        | some h => hGet h "Content-Type"
        | none => ""
      let ct := if ct0 = "" then getContentType path else ct0
      rw.hSetW "Content-Type" ct
  let rw2 := rw1.hSetW "Last-Modified" (fmt lastModified)
  if useIMS then
    if imsHdr ≠ "" then
      match parse imsHdr with
      | some t => if lastModified ≤ t then rw2.writeHeader 304 else rw2
      | none => rw2
    else rw2
  else rw2

/-- handlers.go:102-212 `handleCacheHit`.  Every return in the source is
`return true`, which the model mirrors in `handled`. -/
def handleCacheHit (parse : String → Option GoTime) (fmt : GoTime → String) (now : GoTime)
    (method path imsHdr : String) (contentIn : ByteSeq) (contentLengthIn : Int)
    (lastModified : GoTime) (useIMS : Bool) (o : HitOracle) (rw : RW) : HOut :=
  let evs0 := [Ev.headersGet path]
  match o.cachedHeaders with
  | some ch =>
    if hitNotModified parse imsHdr useIMS ch lastModified then
      ⟨rw.writeHeader 304, evs0, true⟩
    else
      let r := revalOutcome parse fmt now path contentIn contentLengthIn lastModified useIMS ch o
      ⟨serveTail method r.headersOut r.content r.len rw, evs0 ++ r.evs, true⟩
  | none =>
    let rw1 := setBasicHeaders parse fmt path imsHdr none lastModified useIMS rw
    ⟨serveTail method none (some contentIn) contentLengthIn rw1, evs0, true⟩

/-- handlers.go:337-436: the leader part of the miss path, from forming
the origin request to writing the response. -/
def missLeaderFetch (parse : String → Option GoTime) (now : GoTime)
    (method path imsHdr : String) (useIMS : Bool) (res : Option MResp)
    (rw : RW) (evs : List Ev) : MOut :=
  let imsOut : Option String :=
    if useIMS then (if imsHdr ≠ "" then some imsHdr else none) else none
  let evs1 := evs ++ [Ev.originReq method path imsOut "Go-APT-Cache/1.0"]
  match res with
  | none => ⟨rw.httpError "Gateway Timeout" 504, evs1 ++ [Ev.logged "miss-origin-error"]⟩
  | some resp =>
    if resp.status = 304 then ⟨rw.writeHeader 304, evs1⟩
    else if resp.status ≠ 200 then
      let rw1 := rw.writeHeader resp.status
      ⟨rw1.write (resp.bodyRead.getD []), evs1⟩
    else
      match resp.bodyRead with
      | none => ⟨rw.httpError "Internal Server Error" 500, evs1 ++ [Ev.logged "miss-read-error"]⟩
      | some body =>
        let lastModifiedTime := goLastModified parse now resp.header
        let evs2 := evs1 ++ [Ev.cachePut path body (body.length : Int) lastModifiedTime,
                             Ev.headerPut path resp.header]
        let rw1 := rw.addAll resp.header
        let rw2 :=
          if hGet rw1.hdr "Content-Type" = "" then
            let ct := getContentType path
            if ct ≠ "" then rw1.hSetW "Content-Type" ct else rw1
          else rw1
        let rw3 := rw2.writeHeader resp.status
        if method ≠ "HEAD" then ⟨rw3.write body, evs2⟩ else ⟨rw3, evs2⟩

/-- handlers.go:304-436 `handleCacheMiss`: single-flight acquire; a
follower waits, re-checks the cache (dropping into the hit path on
success) and retries the lock, answering `503` if that also fails. -/
def handleCacheMiss (parse : String → Option GoTime) (fmt : GoTime → String) (now : GoTime)
    (method path imsHdr : String) (useIMS : Bool) (o : MissOracle)
    (rw : RW) (evs : List Ev) : MOut :=
  if o.lockFirst then
    missLeaderFetch parse now method path imsHdr useIMS o.originRes rw (evs ++ [Ev.lockAcq path])
  else
    let evs1 := evs ++ [Ev.lockWait path, Ev.cacheGet path]
    match o.regetEntry with
    | some e =>
      let h := handleCacheHit parse fmt now method path imsHdr e.1 e.2.1 e.2.2 useIMS o.regetHit rw
      ⟨h.rw, evs1 ++ h.evs⟩
    | none =>
      if o.lockSecond then
        missLeaderFetch parse now method path imsHdr useIMS o.originRes rw (evs1 ++ [Ev.lockAcq path])
      else ⟨rw.httpError "Server busy, please try again" 503, evs1⟩

/-- The cache/lock/origin environment one request runs against. -/
structure World where
  entry : Option (ByteSeq × Int × GoTime)
  hit : HitOracle
  miss : MissOracle
deriving DecidableEq, Repr

/-- handlers.go:549-577 `HandleCacheableRequest`: validate the method
and query string, classify the path, try the cache, dispatch. -/
def handleCacheableRequest (parse : String → Option GoTime) (fmt : GoTime → String)
    (now : GoTime) (method path rawQuery imsHdr : String) (w : World) : MOut :=
  if method ≠ "GET" ∧ method ≠ "HEAD" then
    ⟨RW.start.httpError "Method not allowed" 405, []⟩
  else if rawQuery ≠ "" then
    ⟨RW.start.httpError "Forbidden" 403, []⟩
  else
    let useIMS := shouldUseIfModifiedSince path
    let evs0 := [Ev.cacheGet path]
    match w.entry with
    | some e =>
      let h := handleCacheHit parse fmt now method path imsHdr e.1 e.2.1 e.2.2 useIMS w.hit RW.start
      if h.handled then ⟨h.rw, evs0 ++ h.evs⟩
      else handleCacheMiss parse fmt now method path imsHdr useIMS w.miss h.rw (evs0 ++ h.evs)
    | none => handleCacheMiss parse fmt now method path imsHdr useIMS w.miss RW.start evs0

/-- handlers.go:520-546 `HandleRelease`: identical flow with the policy
forced to use conditional logic. -/
def handleRelease (parse : String → Option GoTime) (fmt : GoTime → String)
    (now : GoTime) (method path rawQuery imsHdr : String) (w : World) : MOut :=
  if method ≠ "GET" ∧ method ≠ "HEAD" then
    ⟨RW.start.httpError "Method not allowed" 405, []⟩
  else if rawQuery ≠ "" then
    ⟨RW.start.httpError "Forbidden" 403, []⟩
  else
    let evs0 := [Ev.cacheGet path]
    match w.entry with
    | some e =>
      let h := handleCacheHit parse fmt now method path imsHdr e.1 e.2.1 e.2.2 true w.hit RW.start
      if h.handled then ⟨h.rw, evs0 ++ h.evs⟩
      else handleCacheMiss parse fmt now method path imsHdr true w.miss h.rw (evs0 ++ h.evs)
    | none => handleCacheMiss parse fmt now method path imsHdr true w.miss RW.start evs0

/-! ## Spec-side definition for claim C2 -/

/-- The authoritative stored `Last-Modified` of claim C2: the parsable
`Last-Modified` from the stored headers when present, else the stored
entry timestamp. -/
def authoritativeLM (parse : String → Option GoTime) (chOpt : Option Header)
    (lastModified : GoTime) : GoTime :=
  match chOpt with
  | some ch =>
    let s := hGet ch "Last-Modified"
    if s ≠ "" then
      match parse s with
      | some t => t
      | none => lastModified
    else lastModified
  | none => lastModified

/-! ## Concrete date parser/formatter used by witnesses

The Go code treats RFC-7231 parsing/formatting as an external library;
witness instances use this small concrete stand-in. -/

def tParse : String → Option GoTime := fun s =>
  if s = "LM100" then some 100
  else if s = "T50" then some 50
  else if s = "T200" then some 200
  else none

def tFmt : GoTime → String := fun t => "D" ++ toString t

/-! ## Interleaving semantics of the single-flight protocol

A thread on the hit-revalidation refetch path (handlers.go:162-211)
executes: `acquireLock` (handlers.go:38-61, atomic thanks to the
write-lock re-check), then — leader or woken follower alike — the origin
`GET` of `fetchAndUpdateCache` (handlers.go:174/224), then serves, and a
leader finally runs the deferred `releaseLock` (handlers.go:64-72),
which closes the ticket channel and removes it from the map.  The state
of `requestLock.inProgress[p]` for a single path p is `sfLock`; channels
are numbered tickets, and a closed channel stays closed (`sfClosed`). -/

inductive TPc where
  | start
  | waiting (t : Nat)
  | fetching (holds : Bool)
  | serving (holds : Bool)
  | done
deriving DecidableEq, Repr

structure SfSys where
  lock : Option Nat
  nextTicket : Nat
  closed : List Nat
  pcs : List TPc
deriving DecidableEq, Repr

/-- One atomic step of thread `i`; a thread whose next action is blocked
(a waiter on a still-open channel) or finished stutters. -/
def sfStep (s : SfSys) (i : Nat) : SfSys :=
  match s.pcs.get? i with
  | none => s
  | some pc =>
    match pc with
    | TPc.start =>
      match s.lock with
      | none =>
        { s with lock := some s.nextTicket, nextTicket := s.nextTicket + 1,
                 pcs := s.pcs.set i (TPc.fetching true) }
      | some t => { s with pcs := s.pcs.set i (TPc.waiting t) }
    | TPc.waiting t =>
      if t ∈ s.closed then { s with pcs := s.pcs.set i (TPc.fetching false) } else s
    | TPc.fetching h => { s with pcs := s.pcs.set i (TPc.serving h) }
    | TPc.serving h =>
      if h then
        match s.lock with
        | some t => { s with lock := none, closed := s.closed ++ [t], pcs := s.pcs.set i TPc.done }
        | none => { s with pcs := s.pcs.set i TPc.done }
      else { s with pcs := s.pcs.set i TPc.done }
    | TPc.done => s

/-- Run a schedule (a list of thread ids, each performing one step). -/
def sfRun (s : SfSys) : List Nat → SfSys
  | [] => s
  | i :: rest => sfRun (sfStep s i) rest

/-- Number of origin `GET`s for the path currently in flight. -/
def getsInFlight (s : SfSys) : Nat :=
  (s.pcs.filter (fun pc => match pc with | TPc.fetching _ => true | _ => false)).length

/-- Three concurrent requests for one path, all on the hit-revalidation
refetch branch (origin `HEAD` returned `200`). -/
def sfInit3 : SfSys := ⟨none, 0, [], [TPc.start, TPc.start, TPc.start]⟩

/-! ## Concrete instances used by witnesses and counterexamples -/

/-- A hit oracle whose revalidation `HEAD` sees `200` and whose refetch
`GET` fails in transport (handlers.go:224-228 returns nil content). -/
def refetchFailOracle : HitOracle :=
  ⟨some [("Last-Modified", "LM100")], some 200, true, none⟩

/-- A hit oracle whose revalidation `HEAD` sees `200` while the thread
was a follower on the single-flight lock, and whose refetch succeeds. -/
def followerOracle : HitOracle :=
  ⟨some [("Last-Modified", "LM100")], some 200, false, some ⟨[("Last-Modified", "LM100")], -1, some [9, 9]⟩⟩

/-- A quiet oracle: cached headers present, no revalidation traffic. -/
def quietOracle : HitOracle := ⟨some [("Last-Modified", "LM100")], none, true, none⟩

/-- A world for the degraded hit (no cached headers). -/
def degradedWorld : World :=
  ⟨some ([1, 2, 3], 3, 100), ⟨none, none, true, none⟩,
   ⟨true, none, ⟨none, none, true, none⟩, true, none⟩⟩

/-- A world for the miss path whose origin `200` declares
`Content-Length: 3` but delivers two bytes. -/
def missMismatchWorld : World :=
  ⟨none, ⟨none, none, true, none⟩,
   ⟨true, none, ⟨none, none, true, none⟩, true,
    some ⟨200, [("Content-Type", "text/plain"), ("Content-Length", "3")], some [7, 8]⟩⟩⟩

/-- A world for a plain hit on a pool path that carries a critical
token, so `shouldValidateWithOrigin` is true but the classifier turns
conditional logic off. -/
def poolReleaseWorld : World :=
  ⟨some ([1], 1, 100), ⟨some [("Last-Modified", "LM100")], some 200, true, none⟩,
   ⟨true, none, ⟨none, none, true, none⟩, true, none⟩⟩

/-- A miss oracle whose origin answers `304`. -/
def miss304Oracle : MissOracle := ⟨true, none, ⟨none, none, true, none⟩, true, some ⟨304, [], none⟩⟩

/-- A miss oracle whose origin answers `200` with one byte. -/
def miss200Oracle : MissOracle :=
  ⟨true, none, ⟨none, none, true, none⟩, true, some ⟨200, [("Last-Modified", "LM100")], some [4]⟩⟩

/-! ## Projection lemmas for the response writer -/

@[simp] theorem hSetW_hdr (w : RW) (k v : String) : (w.hSetW k v).hdr = hSet w.hdr k v := rfl

@[simp] theorem hSetW_sentStatus (w : RW) (k v : String) : (w.hSetW k v).sentStatus = w.sentStatus := rfl

@[simp] theorem hSetW_sentHdr (w : RW) (k v : String) : (w.hSetW k v).sentHdr = w.sentHdr := rfl

@[simp] theorem hSetW_bodyWrites (w : RW) (k v : String) : (w.hSetW k v).bodyWrites = w.bodyWrites := rfl

@[simp] theorem hSetW_nilRead (w : RW) (k v : String) : (w.hSetW k v).nilRead = w.nilRead := rfl

@[simp] theorem hAddW_hdr (w : RW) (k v : String) : (w.hAddW k v).hdr = hAdd w.hdr k v := rfl

@[simp] theorem hAddW_sentStatus (w : RW) (k v : String) : (w.hAddW k v).sentStatus = w.sentStatus := rfl

@[simp] theorem hAddW_sentHdr (w : RW) (k v : String) : (w.hAddW k v).sentHdr = w.sentHdr := rfl

@[simp] theorem hAddW_bodyWrites (w : RW) (k v : String) : (w.hAddW k v).bodyWrites = w.bodyWrites := rfl

@[simp] theorem hAddW_nilRead (w : RW) (k v : String) : (w.hAddW k v).nilRead = w.nilRead := rfl

@[simp] theorem writeHeader_nilRead (w : RW) (s : Nat) : (w.writeHeader s).nilRead = w.nilRead := by
  cases h : w.sentStatus <;> simp [RW.writeHeader, h]

@[simp] theorem writeHeader_bodyWrites (w : RW) (s : Nat) : (w.writeHeader s).bodyWrites = w.bodyWrites := by
  cases h : w.sentStatus <;> simp [RW.writeHeader, h]

@[simp] theorem writeHeader_hdr (w : RW) (s : Nat) : (w.writeHeader s).hdr = w.hdr := by
  cases h : w.sentStatus <;> simp [RW.writeHeader, h]

theorem writeHeader_sentStatus (w : RW) (s : Nat) :
    (w.writeHeader s).sentStatus = some (w.sentStatus.getD s) := by
  cases h : w.sentStatus <;> simp [RW.writeHeader, h]

theorem writeHeader_sentHdr (w : RW) (s : Nat) :
    (w.writeHeader s).sentHdr = w.finalHdr := by
  cases h : w.sentStatus <;> simp [RW.writeHeader, RW.finalHdr, h]

@[simp] theorem write_nilRead (w : RW) (b : ByteSeq) : (w.write b).nilRead = w.nilRead := by
  simp [RW.write]

@[simp] theorem write_hdr (w : RW) (b : ByteSeq) : (w.write b).hdr = w.hdr := by
  simp [RW.write]

theorem write_sentStatus (w : RW) (b : ByteSeq) :
    (w.write b).sentStatus = some (w.sentStatus.getD 200) := by
  simp [RW.write, writeHeader_sentStatus]

theorem write_bodyWrites (w : RW) (b : ByteSeq) :
    (w.write b).bodyWrites = w.bodyWrites ++ [b] := by
  simp [RW.write]

theorem write_sentHdr (w : RW) (b : ByteSeq) : (w.write b).sentHdr = w.finalHdr := by
  simp [RW.write, writeHeader_sentHdr]

theorem addAll_eq (h : Header) (w : RW) : w.addAll h = { w with hdr := hAddList w.hdr h } := by
  induction h generalizing w with
  | nil => rfl
  | cons kv t ih =>
    show (w.hAddW kv.1 kv.2).addAll t = _
    rw [ih]
    rfl

/-- Looking up a key right after `Set` yields the value just set. -/
theorem hGet_hSet (h : Header) (k v : String) : hGet (hSet h k v) k = v := by
  induction h with
  | nil => simp [hSet, hGet]
  | cons kv t ih =>
    by_cases hk : kv.1 = k
    · simpa [hSet, hGet, List.filter_cons, hk] using ih
    · simpa [hSet, hGet, List.filter_cons, List.find?, hk] using ih

/-! ## Lemmas about the shared serve tail -/

theorem serveTail_finalStatus (m : String) (chOpt : Option Header) (c : Option ByteSeq)
    (l : Int) (w : RW) (h1 : w.sentStatus = none) (h2 : w.nilRead = false) :
    (serveTail m chOpt c l w).finalStatus =
      if m == "HEAD" then some 200 else c.map (fun _ => 200) := by
  unfold serveTail
  rw [addAll_eq]
  by_cases hm : m == "HEAD"
  · simp [hm, RW.finalStatus, h1, h2]
  · cases c with
    | none => simp [hm, RW.copyFrom, RW.finalStatus]
    | some b => simp [hm, RW.copyFrom, RW.finalStatus, write_sentStatus, h1, h2]

theorem serveTail_finalStatus_sent (m : String) (chOpt : Option Header) (b : ByteSeq)
    (l : Int) (w : RW) (s : Nat) (h1 : w.sentStatus = some s) (h2 : w.nilRead = false) :
    (serveTail m chOpt (some b) l w).finalStatus = some s := by
  unfold serveTail
  rw [addAll_eq]
  by_cases hm : m == "HEAD"
  · simp [hm, RW.finalStatus, h1, h2]
  · simp [hm, RW.copyFrom, RW.finalStatus, write_sentStatus, h1, h2]

theorem serveTail_bodyWrites (m : String) (chOpt : Option Header) (c : Option ByteSeq)
    (l : Int) (w : RW) :
    (serveTail m chOpt c l w).bodyWrites =
      if m == "HEAD" then w.bodyWrites
      else
        match c with
        | none => w.bodyWrites
        | some b => w.bodyWrites ++ [b] := by
  unfold serveTail
  rw [addAll_eq]
  by_cases hm : m == "HEAD"
  · simp [hm]
  · cases c with
    | none => simp [hm, RW.copyFrom]
    | some b => simp [hm, RW.copyFrom, write_bodyWrites]

theorem serveTail_finalHdr (m : String) (chOpt : Option Header) (c : Option ByteSeq)
    (l : Int) (w : RW) (h1 : w.sentStatus = none) :
    (serveTail m chOpt c l w).finalHdr =
      hSet (hAddList w.hdr (chOpt.getD [])) "Content-Length" (toString l) := by
  unfold serveTail
  rw [addAll_eq]
  by_cases hm : m == "HEAD"
  · simp [hm, RW.finalHdr, h1]
  · cases c with
    | none => simp [hm, RW.copyFrom, RW.finalHdr, h1]
    | some b =>
      simp [hm, RW.copyFrom, RW.finalHdr, write_sentStatus, write_sentHdr, RW.finalHdr, h1]

theorem serveTail_not304 (m : String) (chOpt : Option Header) (c : Option ByteSeq) (l : Int) :
    (serveTail m chOpt c l RW.start).finalStatus ≠ some 304 := by
  rw [serveTail_finalStatus m chOpt c l RW.start rfl rfl]
  by_cases hm : m == "HEAD" <;> cases c <;> simp [hm]

/-! ## Lemmas about the degraded-path header synthesis -/

theorem setBasicHeaders_nilRead (parse : String → Option GoTime) (fmt : GoTime → String)
    (path imsHdr : String) (chO : Option Header) (lm : GoTime) (useIMS : Bool) (w : RW) :
    (setBasicHeaders parse fmt path imsHdr chO lm useIMS w).nilRead = w.nilRead := by
  unfold setBasicHeaders
  by_cases hu : useIMS = true
  · by_cases hi : imsHdr ≠ ""
    · cases hp : parse imsHdr with
      | none => by_cases hsl : endsWithSlash path = true <;> simp [hu, hi, hp, hsl]
      | some t =>
        by_cases hlt : lm ≤ t <;> by_cases hsl : endsWithSlash path = true <;>
          simp [hu, hi, hp, hlt, hsl]
    · by_cases hsl : endsWithSlash path = true <;> simp [hu, hi, hsl]
  · by_cases hsl : endsWithSlash path = true <;> simp [hu, hsl]

theorem setBasicHeaders_bodyWrites (parse : String → Option GoTime) (fmt : GoTime → String)
    (path imsHdr : String) (chO : Option Header) (lm : GoTime) (useIMS : Bool) (w : RW) :
    (setBasicHeaders parse fmt path imsHdr chO lm useIMS w).bodyWrites = w.bodyWrites := by
  unfold setBasicHeaders
  by_cases hu : useIMS = true
  · by_cases hi : imsHdr ≠ ""
    · cases hp : parse imsHdr with
      | none => by_cases hsl : endsWithSlash path = true <;> simp [hu, hi, hp, hsl]
      | some t =>
        by_cases hlt : lm ≤ t <;> by_cases hsl : endsWithSlash path = true <;>
          simp [hu, hi, hp, hlt, hsl]
    · by_cases hsl : endsWithSlash path = true <;> simp [hu, hi, hsl]
  · by_cases hsl : endsWithSlash path = true <;> simp [hu, hsl]

theorem setBasicHeaders_sentStatus_cases (parse : String → Option GoTime) (fmt : GoTime → String)
    (path imsHdr : String) (chO : Option Header) (lm : GoTime) (useIMS : Bool) (w : RW)
    (h1 : w.sentStatus = none) :
    (setBasicHeaders parse fmt path imsHdr chO lm useIMS w).sentStatus = none ∨
    (setBasicHeaders parse fmt path imsHdr chO lm useIMS w).sentStatus = some 304 := by
  unfold setBasicHeaders
  by_cases hu : useIMS = true
  · by_cases hi : imsHdr ≠ ""
    · cases hp : parse imsHdr with
      | none => by_cases hsl : endsWithSlash path = true <;> simp [hu, hi, hp, hsl, h1]
      | some t =>
        by_cases hlt : lm ≤ t <;> by_cases hsl : endsWithSlash path = true <;>
          simp [hu, hi, hp, hlt, hsl, h1, writeHeader_sentStatus]
    · by_cases hsl : endsWithSlash path = true <;> simp [hu, hi, hsl, h1]
  · by_cases hsl : endsWithSlash path = true <;> simp [hu, hsl, h1]

theorem setBasicHeaders_sentStatus_cond (parse : String → Option GoTime) (fmt : GoTime → String)
    (path imsHdr : String) (chO : Option Header) (lm T : GoTime) (w : RW)
    (h1 : w.sentStatus = none) (him : imsHdr ≠ "") (hp : parse imsHdr = some T) :
    (setBasicHeaders parse fmt path imsHdr chO lm true w).sentStatus =
      if lm ≤ T then some 304 else none := by
  unfold setBasicHeaders
  by_cases hlt : lm ≤ T <;> by_cases hsl : endsWithSlash path = true <;>
    simp [him, hp, hlt, hsl, h1, writeHeader_sentStatus]

/-! ## The conditional check against the claimed authoritative timestamp -/

theorem hitNotModified_iff (parse : String → Option GoTime) (imsHdr : String)
    (ch : Header) (lm T : GoTime) (him : imsHdr ≠ "") (hp : parse imsHdr = some T) :
    (hitNotModified parse imsHdr true ch lm = true ↔ authoritativeLM parse (some ch) lm ≤ T) := by
  unfold hitNotModified authoritativeLM
  simp [him, hp]

/-- C2: on a cache hit with `use_conditional = true` and a parsable
client `If-Modified-Since` timestamp `T`, the response status is `304`
iff the authoritative stored `Last-Modified` — the parsable cached
`Last-Modified` header if present, else the stored entry timestamp — is
not after `T` (equal timestamps yield `304`). -/
theorem c2_hit_304_iff (parse : String → Option GoTime) (fmt : GoTime → String) (now : GoTime)
    (method path imsHdr : String) (contentIn : ByteSeq) (clen : Int) (lm : GoTime)
    (o : HitOracle) (T : GoTime) (him : imsHdr ≠ "") (hp : parse imsHdr = some T) :
    ((handleCacheHit parse fmt now method path imsHdr contentIn clen lm true o RW.start).rw.finalStatus
        = some 304 ↔ authoritativeLM parse o.cachedHeaders lm ≤ T) := by
  cases hch : o.cachedHeaders with
  | some ch =>
    by_cases hnm : hitNotModified parse imsHdr true ch lm = true
    · have hiff := (hitNotModified_iff parse imsHdr ch lm T him hp).mp hnm
      simp [handleCacheHit, hch, hnm, RW.finalStatus, writeHeader_sentStatus, RW.start, hiff]
    · have hiff := hitNotModified_iff parse imsHdr ch lm T him hp
      have hne := serveTail_not304 method
        (revalOutcome parse fmt now path contentIn clen lm true ch o).headersOut
        (revalOutcome parse fmt now path contentIn clen lm true ch o).content
        (revalOutcome parse fmt now path contentIn clen lm true ch o).len
      simp only [handleCacheHit, hch, hnm, if_false, Bool.false_eq_true]
      constructor
      · intro hcontra; exact absurd hcontra hne
      · intro hle; exact absurd ((hitNotModified_iff parse imsHdr ch lm T him hp).mpr hle) hnm
  | none =>
    have h1 : (setBasicHeaders parse fmt path imsHdr none lm true RW.start).sentStatus =
        if lm ≤ T then some 304 else none :=
      setBasicHeaders_sentStatus_cond parse fmt path imsHdr none lm T RW.start rfl him hp
    have h2 : (setBasicHeaders parse fmt path imsHdr none lm true RW.start).nilRead = false :=
      setBasicHeaders_nilRead parse fmt path imsHdr none lm true RW.start
    by_cases hlt : lm ≤ T
    · rw [if_pos hlt] at h1
      have hfs := serveTail_finalStatus_sent method none contentIn clen _ 304 h1 h2
      simp [handleCacheHit, hch, authoritativeLM, hfs, hlt]
    · rw [if_neg hlt] at h1
      have hfs := serveTail_finalStatus method none (some contentIn) clen _ h1 h2
      simp only [handleCacheHit, hch]
      rw [hfs]
      by_cases hm : method == "HEAD" <;> simp [hm, authoritativeLM, hlt]

/-- Witness for C2: a concrete hit whose cached `Last-Modified` (100) is
after the client timestamp (50), so no `304`. -/
theorem c2_witness :
    ((handleCacheHit tParse tFmt 0 "GET" "/p" "T50" [1] 1 100 true quietOracle RW.start).rw.finalStatus
        = some 304 ↔ authoritativeLM tParse quietOracle.cachedHeaders 100 ≤ 50) :=
  c2_hit_304_iff tParse tFmt 0 "GET" "/p" "T50" [1] 1 100 quietOracle 50 (by decide) (by decide)

/-- Whatever the revalidation outcome, the length travelling with the
content into the serve tail is either the stored length with the stored
body, the received byte count of a refetched body, or a nil content. -/
theorem revalOutcome_len (parse : String → Option GoTime) (fmt : GoTime → String) (now : GoTime)
    (path : String) (contentIn : ByteSeq) (clen : Int) (lm : GoTime) (useIMS : Bool)
    (ch : Header) (o : HitOracle) :
    (revalOutcome parse fmt now path contentIn clen lm useIMS ch o).content = none ∨
    ((revalOutcome parse fmt now path contentIn clen lm useIMS ch o).content = some contentIn ∧
      (revalOutcome parse fmt now path contentIn clen lm useIMS ch o).len = clen) ∨
    (∃ b, (revalOutcome parse fmt now path contentIn clen lm useIMS ch o).content = some b ∧
      (revalOutcome parse fmt now path contentIn clen lm useIMS ch o).len = (b.length : Int)) := by
  unfold revalOutcome
  by_cases hv : (useIMS = true) ∧ shouldValidateWithOrigin path = true
  · cases hr : o.headRes with
    | none => simp [hv, hr]
    | some s =>
      by_cases h304 : s = 304
      · simp [hv, hr, h304]
      · by_cases h200 : s = 200
        · simp only [hv, hr, h304, h200, and_self, if_true, if_false, ite_true, ite_false]
          unfold fetchAndUpdateCache
          cases hf : o.refetch with
          | none => simp
          | some resp =>
            cases hb : resp.body with
            | none => simp [hb]
            | some bb =>
              by_cases hmis : resp.contentLength > 0 ∧ resp.contentLength ≠ (bb.length : Int)
              · right; right; exact ⟨bb, by simp [hb, hmis], by simp [hb, hmis]⟩
              · right; right; exact ⟨bb, by simp [hb, hmis], by simp [hb, hmis]⟩
        · simp [hv, hr, h304, h200]
  · simp [hv]

/-- C4 (amended): on the cache-hit path a `GET` that completes with
status `200` always carries a `Content-Length` header equal to the
number of body bytes actually served (the stored blob's length invariant
is the hypothesis `hlen`); overwriting happens in the serve tail.  On
the miss path the origin headers are forwarded without overwriting, see
the counterexample. -/
theorem c4_amended_hit (parse : String → Option GoTime) (fmt : GoTime → String) (now : GoTime)
    (path imsHdr : String) (contentIn : ByteSeq) (clen : Int) (lm : GoTime) (useIMS : Bool)
    (o : HitOracle) (hlen : clen = (contentIn.length : Int))
    (hs : (handleCacheHit parse fmt now "GET" path imsHdr contentIn clen lm useIMS o RW.start).rw.finalStatus = some 200) :
    hGet (handleCacheHit parse fmt now "GET" path imsHdr contentIn clen lm useIMS o RW.start).rw.finalHdr "Content-Length"
      = toString ((bodyServed (handleCacheHit parse fmt now "GET" path imsHdr contentIn clen lm useIMS o RW.start).rw).length : Int) := by
  cases hch : o.cachedHeaders with
  | some ch =>
    by_cases hnm : hitNotModified parse imsHdr useIMS ch lm = true
    · simp [handleCacheHit, hch, hnm, RW.start, RW.writeHeader, RW.finalStatus] at hs
    · simp [handleCacheHit, hch, hnm] at hs ⊢
      rcases revalOutcome_len parse fmt now path contentIn clen lm useIMS ch o with
        hnone | ⟨hc, hl⟩ | ⟨b, hc, hl⟩
      · rw [hnone, serveTail_finalStatus _ _ _ _ _ rfl rfl] at hs
        simp at hs
      · rw [hc, hl] at hs ⊢
        rw [serveTail_finalHdr _ _ _ _ _ rfl]
        simp [hGet_hSet, bodyServed, serveTail_bodyWrites, RW.start, hlen]
      · rw [hc, hl] at hs ⊢
        rw [serveTail_finalHdr _ _ _ _ _ rfl]
        simp [hGet_hSet, bodyServed, serveTail_bodyWrites, RW.start]
  | none =>
    rcases setBasicHeaders_sentStatus_cases parse fmt path imsHdr none lm useIMS RW.start rfl with h1 | h1
    · simp [handleCacheHit, hch] at hs ⊢
      rw [serveTail_finalHdr _ _ _ _ _ h1, hGet_hSet]
      have h3 : (setBasicHeaders parse fmt path imsHdr none lm useIMS RW.start).bodyWrites = [] := by
        rw [setBasicHeaders_bodyWrites]
        rfl
      have hserved : bodyServed (serveTail "GET" none (some contentIn) clen
          (setBasicHeaders parse fmt path imsHdr none lm useIMS RW.start)) = contentIn := by
        unfold bodyServed
        rw [serveTail_bodyWrites, h3]
        simp
      rw [hserved, hlen]
    · have h2 : (setBasicHeaders parse fmt path imsHdr none lm useIMS RW.start).nilRead = false :=
        setBasicHeaders_nilRead parse fmt path imsHdr none lm useIMS RW.start
      simp [handleCacheHit, hch] at hs
      rw [serveTail_finalStatus_sent _ _ _ _ _ 304 h1 h2] at hs
      simp at hs

/-- Witness for C4: a plain hit with matching stored length. -/
theorem c4_witness :
    hGet (handleCacheHit tParse tFmt 0 "GET" "/p" "" [1, 2] 2 100 false quietOracle RW.start).rw.finalHdr "Content-Length"
      = toString ((bodyServed (handleCacheHit tParse tFmt 0 "GET" "/p" "" [1, 2] 2 100 false quietOracle RW.start).rw).length : Int) :=
  c4_amended_hit tParse tFmt 0 "/p" "" [1, 2] 2 100 false quietOracle (by decide) (by decide)

/-- C4 counterexample: on the miss path the origin-declared
`Content-Length: 3` is forwarded to the client although only two body
bytes are served with status `200` — nothing overwrites it. -/
theorem c4_miss_counterexample :
    (handleCacheableRequest tParse tFmt 0 "GET" "/x/a.bin" "" "" missMismatchWorld).rw.finalStatus = some 200 ∧
    hGet (handleCacheableRequest tParse tFmt 0 "GET" "/x/a.bin" "" "" missMismatchWorld).rw.finalHdr "Content-Length" = "3" ∧
    bodyServed (handleCacheableRequest tParse tFmt 0 "GET" "/x/a.bin" "" "" missMismatchWorld).rw = [7, 8] := by
  decide

/-- C3 (amended): a `304` produced on a cache hit with cached headers
present, and a `304` forwarded from the origin on a cache miss, carry no
body: the handler returns right after writing the status.  In the
degraded hit state (cached headers absent) the handler does not return
after the `304` and still attempts the body write for a `GET` — see the
counterexample. -/
theorem c3_amended (parse : String → Option GoTime) (fmt : GoTime → String) (now : GoTime)
    (method path imsHdr : String) (contentIn : ByteSeq) (clen : Int) (lm : GoTime)
    (useIMS : Bool) (o : HitOracle) (ch : Header)
    (method2 path2 imsHdr2 : String) (useIMS2 : Bool) (mo : MissOracle) (resp : MResp)
    (hch : o.cachedHeaders = some ch)
    (hmo : mo.originRes = some resp) (h304 : resp.status = 304) (hlf : mo.lockFirst = true) :
    ((handleCacheHit parse fmt now method path imsHdr contentIn clen lm useIMS o RW.start).rw.finalStatus = some 304 →
      (handleCacheHit parse fmt now method path imsHdr contentIn clen lm useIMS o RW.start).rw.bodyWrites = []) ∧
    ((handleCacheMiss parse fmt now method2 path2 imsHdr2 useIMS2 mo RW.start []).rw.bodyWrites = [] ∧
      (handleCacheMiss parse fmt now method2 path2 imsHdr2 useIMS2 mo RW.start []).rw.finalStatus = some 304) := by
  constructor
  · intro hs
    by_cases hnm : hitNotModified parse imsHdr useIMS ch lm = true
    · simp [handleCacheHit, hch, hnm, RW.start, RW.writeHeader]
    · exfalso
      simp [handleCacheHit, hch, hnm] at hs
      exact serveTail_not304 _ _ _ _ hs
  · constructor <;>
      simp [handleCacheMiss, hlf, missLeaderFetch, hmo, h304, RW.start, RW.writeHeader, RW.finalStatus]

/-- C3 counterexample: degraded hit (no cached headers), client
timestamp 200 at or after the stored timestamp 100 — the handler writes
`304` and then still writes the three cached body bytes. -/
theorem c3_degraded_counterexample :
    (handleCacheableRequest tParse tFmt 0 "GET" "/ubuntu/dists/jammy/Release" "" "T200" degradedWorld).rw.finalStatus = some 304 ∧
    (handleCacheableRequest tParse tFmt 0 "GET" "/ubuntu/dists/jammy/Release" "" "T200" degradedWorld).rw.bodyWrites = [[1, 2, 3]] := by
  decide

/-- Witness for C3 at concrete hit and miss inputs. -/
theorem c3_witness :
    ((handleCacheHit tParse tFmt 0 "GET" "/p" "T200" [1] 1 100 true quietOracle RW.start).rw.finalStatus = some 304 →
      (handleCacheHit tParse tFmt 0 "GET" "/p" "T200" [1] 1 100 true quietOracle RW.start).rw.bodyWrites = []) ∧
    ((handleCacheMiss tParse tFmt 0 "GET" "/m" "" false miss304Oracle RW.start []).rw.bodyWrites = [] ∧
      (handleCacheMiss tParse tFmt 0 "GET" "/m" "" false miss304Oracle RW.start []).rw.finalStatus = some 304) :=
  c3_amended tParse tFmt 0 "GET" "/p" "T200" [1] 1 100 true quietOracle [("Last-Modified", "LM100")]
    "GET" "/m" "" false miss304Oracle ⟨304, [], none⟩ rfl rfl rfl rfl

/-- C5 (amended): when the refetched origin `200` declares a positive
`Content-Length` different from the received byte count, the received
bytes are returned for serving with the received length, but the store
is SKIPPED — no blob or header write, only a log entry (the early return
at handlers.go:241-244).  On the miss path there is no size check and
the received bytes are always stored. -/
theorem c5_amended (parse : String → Option GoTime) (fmt : GoTime → String) (now : GoTime)
    (path : String) (resp : OriginResp) (b : ByteSeq)
    (method path2 imsHdr : String) (useIMS : Bool) (mo : MissOracle) (resp2 : MResp) (b2 : ByteSeq)
    (hb : resp.body = some b) (hpos : resp.contentLength > 0)
    (hne : resp.contentLength ≠ (b.length : Int))
    (hlf : mo.lockFirst = true) (hm : mo.originRes = some resp2)
    (hst : resp2.status = 200) (hbr : resp2.bodyRead = some b2) :
    fetchAndUpdateCache parse now path (some resp) =
      ⟨some b, (b.length : Int), some resp.header,
        [Ev.getReq path "Go-APT-Cache/1.0", Ev.logged "fetch-size-mismatch"]⟩ ∧
    Ev.cachePut path2 b2 (b2.length : Int) (goLastModified parse now resp2.header) ∈
      (handleCacheMiss parse fmt now method path2 imsHdr useIMS mo RW.start []).evs := by
  constructor
  · simp [fetchAndUpdateCache, hb, hpos, hne]
  · simp [handleCacheMiss, hlf, missLeaderFetch, hm, hst, hbr]
    split <;> simp

/-- C5 counterexample: declared length 3, received two bytes — the
fetch serves the two bytes but emits no `cachePut`/`headerPut`: the
store was skipped, not performed. -/
theorem c5_counterexample :
    (fetchAndUpdateCache tParse 0 "/p" (some ⟨[("Content-Length", "3")], 3, some [7, 8]⟩)).evs =
      [Ev.getReq "/p" "Go-APT-Cache/1.0", Ev.logged "fetch-size-mismatch"] ∧
    (fetchAndUpdateCache tParse 0 "/p" (some ⟨[("Content-Length", "3")], 3, some [7, 8]⟩)).content = some [7, 8] ∧
    (3 : Int) ≠ (([7, 8] : ByteSeq).length : Int) := by
  decide

/-- Witness for C5 at a concrete mismatching fetch and a concrete miss. -/
theorem c5_witness :
    fetchAndUpdateCache tParse 0 "/p" (some ⟨[("Content-Length", "3")], 3, some [7, 8]⟩) =
      ⟨some [7, 8], (([7, 8] : ByteSeq).length : Int), some [("Content-Length", "3")],
        [Ev.getReq "/p" "Go-APT-Cache/1.0", Ev.logged "fetch-size-mismatch"]⟩ ∧
    Ev.cachePut "/m" [4] (([4] : ByteSeq).length : Int) (goLastModified tParse 0 [("Last-Modified", "LM100")]) ∈
      (handleCacheMiss tParse tFmt 0 "GET" "/m" "" false miss200Oracle RW.start []).evs :=
  c5_amended tParse tFmt 0 "/p" ⟨[("Content-Length", "3")], 3, some [7, 8]⟩ [7, 8]
    "GET" "/m" "" false miss200Oracle ⟨200, [("Last-Modified", "LM100")], some [4]⟩ [4]
    rfl (by decide) (by decide) rfl rfl rfl rfl

/-- C6: a request whose method is neither `GET` nor `HEAD` is answered
`405`, and an allowed method with a non-empty query string is answered
`403`; in both cases the handler emits no cache or origin event at all. -/
theorem c6_validate_first (parse : String → Option GoTime) (fmt : GoTime → String) (now : GoTime)
    (method path rawQuery imsHdr : String) (w : World) :
    (method ≠ "GET" ∧ method ≠ "HEAD" →
      (handleCacheableRequest parse fmt now method path rawQuery imsHdr w).rw.finalStatus = some 405 ∧
      (handleCacheableRequest parse fmt now method path rawQuery imsHdr w).evs = []) ∧
    (¬(method ≠ "GET" ∧ method ≠ "HEAD") → rawQuery ≠ "" →
      (handleCacheableRequest parse fmt now method path rawQuery imsHdr w).rw.finalStatus = some 403 ∧
      (handleCacheableRequest parse fmt now method path rawQuery imsHdr w).evs = []) := by
  constructor
  · intro h
    have heq : handleCacheableRequest parse fmt now method path rawQuery imsHdr w =
        ⟨RW.start.httpError "Method not allowed" 405, []⟩ := by
      unfold handleCacheableRequest
      rw [if_pos h]
    rw [heq]
    exact ⟨by decide, rfl⟩
  · intro h hq
    have heq : handleCacheableRequest parse fmt now method path rawQuery imsHdr w =
        ⟨RW.start.httpError "Forbidden" 403, []⟩ := by
      unfold handleCacheableRequest
      rw [if_neg h, if_pos hq]
    rw [heq]
    exact ⟨by decide, rfl⟩

/-- Witness for C6: a `POST` gets `405`, a `GET` with a query gets
`403`, both with no events. -/
theorem c6_witness :
    ((handleCacheableRequest tParse tFmt 0 "POST" "/p" "" "" degradedWorld).rw.finalStatus = some 405 ∧
      (handleCacheableRequest tParse tFmt 0 "POST" "/p" "" "" degradedWorld).evs = []) ∧
    ((handleCacheableRequest tParse tFmt 0 "GET" "/p" "x=1" "" degradedWorld).rw.finalStatus = some 403 ∧
      (handleCacheableRequest tParse tFmt 0 "GET" "/p" "x=1" "" degradedWorld).evs = []) :=
  ⟨(c6_validate_first tParse tFmt 0 "POST" "/p" "" "" degradedWorld).1 (by decide),
   (c6_validate_first tParse tFmt 0 "GET" "/p" "x=1" "" degradedWorld).2 (by decide) (by decide)⟩

/-- C7 counterexample: the path `/ubuntu/ReleaseNotes/file.bin` has no
`/dists/`, no `/pool/`, and a basename containing no token, yet the
classifier returns `true` because the token `Release` occurs in a
directory component: the source tests the whole path, not the basename. -/
theorem c7_counterexample :
    shouldUseIfModifiedSince "/ubuntu/ReleaseNotes/file.bin" = true ∧
    claimUseConditional "/ubuntu/ReleaseNotes/file.bin" = false := by
  decide

/-- C7 (amended): the classifier equals the ordered rules of the claim
with rule 3 testing the WHOLE path (not the basename) against the eleven
tokens. -/
theorem c7_amended (p : String) : shouldUseIfModifiedSince p = amendedUseConditional p := by
  unfold shouldUseIfModifiedSince amendedUseConditional frequentlyChangingPatterns
  by_cases h1 : goContains p "/dists/" = true
  · simp [h1]
  · by_cases h2 : goContains p "/pool/" = true
    · simp [h1, h2]
    · simp [h1, h2, List.any_cons, List.any_nil, Bool.or_assoc]

/-- C8 (amended): on every cache hit with cached headers available,
`use_conditional = true`, `validate_with_origin = true`, and not already
answered by a `304`, the engine issues the conditional `HEAD` carrying
`If-Modified-Since` set to the cached `Last-Modified` header when
non-empty, else the formatted entry timestamp, plus the fixed
`User-Agent`. -/
theorem c8_amended (parse : String → Option GoTime) (fmt : GoTime → String) (now : GoTime)
    (method path imsHdr : String) (contentIn : ByteSeq) (clen : Int) (lm : GoTime)
    (o : HitOracle) (ch : Header)
    (hch : o.cachedHeaders = some ch)
    (hv : shouldValidateWithOrigin path = true)
    (hnm : hitNotModified parse imsHdr true ch lm = false) :
    Ev.headReq path (if hGet ch "Last-Modified" ≠ "" then hGet ch "Last-Modified" else fmt lm)
        "Go-APT-Cache/1.0"
      ∈ (handleCacheHit parse fmt now method path imsHdr contentIn clen lm true o RW.start).evs := by
  simp only [handleCacheHit, hch, hnm, Bool.false_eq_true, if_false]
  simp only [revalOutcome, hv, and_self, if_true, ite_true]
  cases hr : o.headRes with
  | none => simp [hr]
  | some s =>
    by_cases h3 : s = 304
    · simp [hr, h3]
    · by_cases h2 : s = 200
      · simp [hr, h3, h2]
      · simp [hr, h3, h2]

/-- C8 counterexample, two configurations the claim covers but the code
skips: a hit on `/pool/x/Release` (`validate_with_origin` true but the
classifier yields `use_conditional` false) and a degraded hit on
`/ubuntu/dists/jammy/Packages` (no cached headers): neither run issues
any origin `HEAD`, and neither was answered by a `304`. -/
theorem c8_counterexample :
    (shouldValidateWithOrigin "/pool/x/Release" = true ∧
      ((handleCacheableRequest tParse tFmt 0 "GET" "/pool/x/Release" "" "" poolReleaseWorld).evs.all
        (fun e => !isHeadReqEv e)) = true ∧
      (handleCacheableRequest tParse tFmt 0 "GET" "/pool/x/Release" "" "" poolReleaseWorld).rw.finalStatus = some 200) ∧
    (shouldValidateWithOrigin "/ubuntu/dists/jammy/Packages" = true ∧
      ((handleCacheableRequest tParse tFmt 0 "GET" "/ubuntu/dists/jammy/Packages" "" "" degradedWorld).evs.all
        (fun e => !isHeadReqEv e)) = true ∧
      (handleCacheableRequest tParse tFmt 0 "GET" "/ubuntu/dists/jammy/Packages" "" "" degradedWorld).rw.finalStatus = some 200) := by
  decide

/-- Witness for C8: a critical-metadata hit with cached headers. -/
theorem c8_witness :
    Ev.headReq "/ubuntu/dists/jammy/Release"
        (if hGet [("Last-Modified", "LM100")] "Last-Modified" ≠ "" then
          hGet [("Last-Modified", "LM100")] "Last-Modified"
        else tFmt 100)
        "Go-APT-Cache/1.0"
      ∈ (handleCacheHit tParse tFmt 0 "GET" "/ubuntu/dists/jammy/Release" "" [1] 1 100 true quietOracle RW.start).evs :=
  c8_amended tParse tFmt 0 "GET" "/ubuntu/dists/jammy/Release" "" [1] 1 100 quietOracle
    [("Last-Modified", "LM100")] rfl (by decide) (by decide)

/-- C9: when the revalidation `HEAD` fails in transport, the hit is
served fail-open: the writer state is exactly the plain serve of the
stored headers and body, the status is `200`, and the only events are
the header-cache read, the `HEAD`, and a warning log — no refetch, no
cache write. -/
theorem c9_fail_open (parse : String → Option GoTime) (fmt : GoTime → String) (now : GoTime)
    (method path imsHdr : String) (contentIn : ByteSeq) (clen : Int) (lm : GoTime)
    (o : HitOracle) (ch : Header)
    (hch : o.cachedHeaders = some ch)
    (hhr : o.headRes = none)
    (hv : shouldValidateWithOrigin path = true)
    (hnm : hitNotModified parse imsHdr true ch lm = false) :
    (handleCacheHit parse fmt now method path imsHdr contentIn clen lm true o RW.start).rw =
      serveTail method (some ch) (some contentIn) clen RW.start ∧
    (handleCacheHit parse fmt now method path imsHdr contentIn clen lm true o RW.start).evs =
      [Ev.headersGet path,
       Ev.headReq path (if hGet ch "Last-Modified" ≠ "" then hGet ch "Last-Modified" else fmt lm)
         "Go-APT-Cache/1.0",
       Ev.logged "hit-reval-transport-error"] ∧
    (handleCacheHit parse fmt now method path imsHdr contentIn clen lm true o RW.start).rw.finalStatus = some 200 := by
  have h1 : revalOutcome parse fmt now path contentIn clen lm true ch o =
      ⟨some ch, some contentIn, clen,
        [Ev.headReq path (if hGet ch "Last-Modified" ≠ "" then hGet ch "Last-Modified" else fmt lm)
           "Go-APT-Cache/1.0",
         Ev.logged "hit-reval-transport-error"]⟩ := by
    simp [revalOutcome, hv, hhr]
  refine ⟨?_, ?_, ?_⟩
  · simp [handleCacheHit, hch, hnm, h1]
  · simp [handleCacheHit, hch, hnm, h1]
  · simp only [handleCacheHit, hch, hnm, Bool.false_eq_true, if_false, h1]
    rw [serveTail_finalStatus _ _ _ _ _ rfl rfl]
    by_cases hm : method == "HEAD" <;> simp [hm]

/-- Witness for C9 at a concrete critical-metadata hit whose `HEAD`
fails in transport. -/
theorem c9_witness :
    (handleCacheHit tParse tFmt 0 "GET" "/ubuntu/dists/jammy/Release" "" [1] 1 100 true quietOracle RW.start).rw =
      serveTail "GET" (some [("Last-Modified", "LM100")]) (some [1]) 1 RW.start ∧
    (handleCacheHit tParse tFmt 0 "GET" "/ubuntu/dists/jammy/Release" "" [1] 1 100 true quietOracle RW.start).evs =
      [Ev.headersGet "/ubuntu/dists/jammy/Release",
       Ev.headReq "/ubuntu/dists/jammy/Release"
         (if hGet [("Last-Modified", "LM100")] "Last-Modified" ≠ "" then
           hGet [("Last-Modified", "LM100")] "Last-Modified"
         else tFmt 100)
         "Go-APT-Cache/1.0",
       Ev.logged "hit-reval-transport-error"] ∧
    (handleCacheHit tParse tFmt 0 "GET" "/ubuntu/dists/jammy/Release" "" [1] 1 100 true quietOracle RW.start).rw.finalStatus = some 200 :=
  c9_fail_open tParse tFmt 0 "GET" "/ubuntu/dists/jammy/Release" "" [1] 1 100 quietOracle
    [("Last-Modified", "LM100")] rfl rfl (by decide) (by decide)

/-- C1 is violated by the code: the interleaving semantics of the
hit-revalidation refetch path reaches a state with TWO origin `GET`s for
the same path in flight (schedule: leader 0 fetches and releases;
follower 1 wakes and fetches lockless; newcomer 2 acquires the free lock
and fetches concurrently), and the sequential model confirms that a
follower that lost the lock at handlers.go:167 still performs its own
origin `GET` at handlers.go:174 instead of sharing the leader's result. -/
theorem c1_two_gets_in_flight :
    getsInFlight (sfRun sfInit3 [0, 1, 0, 0, 1, 2]) = 2 ∧
    (Ev.lockWait "/ubuntu/dists/jammy/Release" ∈
      (handleCacheHit tParse tFmt 0 "GET" "/ubuntu/dists/jammy/Release" "" [1] 1 100 true followerOracle RW.start).evs ∧
     Ev.getReq "/ubuntu/dists/jammy/Release" "Go-APT-Cache/1.0" ∈
      (handleCacheHit tParse tFmt 0 "GET" "/ubuntu/dists/jammy/Release" "" [1] 1 100 true followerOracle RW.start).evs) := by
  decide

/-- C10 is violated by the code: when the revalidation-triggered refetch
fails, `fetchAndUpdateCache` returns a nil content stream
(handlers.go:227) and the `GET` branch of the hit path reads from it at
`io.Copy` (handlers.go:206) — a nil-pointer dereference; no response
completes. -/
theorem c10_nil_body_read :
    (handleCacheHit tParse tFmt 0 "GET" "/ubuntu/dists/jammy/Release" "" [1, 2, 3] 3 100 true refetchFailOracle RW.start).rw.nilRead = true ∧
    (handleCacheHit tParse tFmt 0 "GET" "/ubuntu/dists/jammy/Release" "" [1, 2, 3] 3 100 true refetchFailOracle RW.start).rw.finalStatus = none := by
  decide
